import Mathlib

/-!
Verification development for the anonymous-chat matchmaking and relay core
(src/modules/menu.js, src/database.js).

Shallow embedding conventions:
- The MongoDB participant collection (COLLECTION_NAME) is a list of
  Participant records in insertion order; findOne is first-match lookup,
  updateOne rewrites the first matching document, insertOne appends.
- Timestamps are Nat milliseconds; Date.now() is passed in as a parameter.
- The transport (bot.sendMessage) is modelled by an environment that says
  per recipient whether a send succeeds; every attempted send is logged as
  a Sent record carrying the recipient, a payload descriptor and the
  success flag. downloadMediaMessage success is a separate flag.
- User-visible notice strings are close ASCII renderings of the literal
  texts in menu.js (emoji and apostrophes dropped); the claims depend only
  on which recipient gets which notice, not on the exact glyphs.
- Store/transport unavailability (the outermost catch blocks of menu.js,
  which log and fall through) is out of scope; store operations in the
  embedding always succeed, matching section 7 of the spec which routes
  store unavailability to the surrounding adapter.
-/

/-- One entry of the recentPartners array: a partner id and a match
timestamp (menu.js handleSearch, the push of partnerId/timestamp pairs). -/
structure RecentEntry where
  partnerId : String
  timestamp : Nat
  deriving DecidableEq, Repr

/-- One document of the anonymous_chat collection (menu.js handleSearch,
the record created on first search). -/
structure Participant where
  id : String
  status : String
  partner : Option String
  joinedAt : Nat
  lastSearchTime : Nat
  recentPartners : List RecentEntry
  deriving DecidableEq, Repr

/-- messageData as built by queueMessageOnFailure callers in relayMessage:
a type tag, a content string, and optional caption / fileName / mimetype. -/
structure MessageData where
  type : String
  content : String
  caption : Option String := none
  fileName : Option String := none
  mimetype : Option String := none
  deriving DecidableEq, Repr

/-- One document of the message_queue collection, as inserted by
database.addToMessageQueue.  The insert in queueMessageOnFailure supplies
only sender, recipient, messageData, timestamp, messageType and
originalMessageId; status, retries and mediaBuffer are modelled as Option
fields that are none when the source never writes them.  qid models the
MongoDB generated unique id. -/
structure QueuedMessage where
  qid : Nat
  sender : String
  recipient : String
  messageData : MessageData
  timestamp : Nat
  messageType : String
  originalMessageId : String
  status : Option String := none
  retries : Option Nat := none
  mediaBuffer : Option String := none
  deriving DecidableEq, Repr

/-- Payload descriptor of one bot.sendMessage call. -/
inductive SendPayload where
  | text (s : String)
  | image (caption : String)
  | video (caption : String)
  | audio
  | sticker
  | document (mimetype fileName : String)
  | contacts
  | location (lat lng : Int)
  deriving DecidableEq, Repr

/-- One attempted transport send: recipient, payload, and whether the
transport accepted it (false models a thrown transport error). -/
structure Sent where
  dest : String
  payload : SendPayload
  ok : Bool
  deriving DecidableEq, Repr

/-- Transport environment: per-recipient send success and media download
success (downloadMediaMessage). -/
structure Env where
  sendOk : String → Bool
  downloadOk : Bool

/-- database.findOne on the participant collection with filter id = s:
first match in insertion order. -/
def findP : List Participant → String → Option Participant
  | [], _ => none
  | p :: rest, s => if p.id == s then some p else findP rest s

/-- database.updateOne on the participant collection with filter id = s:
rewrite the first matching document, leave everything else in place. -/
def updateOne : List Participant → String → (Participant → Participant) → List Participant
  | [], _, _ => []
  | p :: rest, s, f => if p.id == s then f p :: rest else p :: updateOne rest s f

/-- The set-fields part of the match commit in handleSearch: status
chatting, partner set, and a recentPartners push of the new partner. -/
def setChatWith (pid : String) (now : Nat) (p : Participant) : Participant :=
  { p with status := "chatting", partner := some pid,
           recentPartners := p.recentPartners ++ [⟨pid, now⟩] }

/-- The set in handleSearch for an existing record: status waiting and a
refreshed lastSearchTime (partner is not written by this update). -/
def setWaiting (now : Nat) (p : Participant) : Participant :=
  { p with status := "waiting", lastSearchTime := now }

/-- The reset used by handleNext and handleStop: status idle, partner null. -/
def resetIdle (p : Participant) : Participant :=
  { p with status := "idle", partner := none }

/-- Notices sent by the matchmaker (ASCII renderings of menu.js texts). -/
def alreadyInChatText : String :=
  "You are already in an anonymous chat. Use .stop to end your current session first."

def partnerFoundText : String :=
  "Partner found. You are now connected to a random person."

def searchingText : String :=
  "Searching for a partner. Please wait while we find someone for you to chat with."

def notInChatText : String :=
  "You are not in an anonymous chat. Use .search to find a partner first."

def partnerLeftText : String :=
  "Your chat partner has left and is looking for someone new. Use .search to find a new partner."

def noSessionText : String :=
  "You are not in an anonymous chat session."

def partnerEndedText : String :=
  "Your chat partner has ended the conversation. Use .search to find a new partner."

def stopDoneText : String :=
  "You have successfully ended the anonymous chat session. Use .search to start a new one."

/-- The unexpired recent-partner ids: entries whose timestamp is strictly
newer than one hour (3600000 ms) before now, as in handleSearch
(filter entry.timestamp greater than oneHourAgo, then map to partnerId).
Nat subtraction truncates at zero, matching a clock that starts at 0. -/
def unexpiredRecent (entries : List RecentEntry) (now : Nat) : List String :=
  (entries.filter (fun e => now - 3600000 < e.timestamp)).map (fun e => e.partnerId)

/-- The partner scan of handleSearch.  The source writes the filter
object with a duplicated id key: status waiting, id ne sender, id nin
currentRecentPartners.  Under JavaScript object-literal semantics the
second id key overwrites the first, so the filter that actually reaches
findOne is status = waiting and id not in the recent-partner list: the
self-exclusion clause is lost.  The embedding reproduces the evaluated
filter. -/
def scanForPartner (store : List Participant) (recent : List String) : Option Participant :=
  store.find? (fun u => u.status == "waiting" && !(recent.contains u.id))

/-- The tail of handleSearch after the upsert: compute the unexpired
exclusion list from the pre-update record, scan, and either commit the
match on both sides (two updateOne calls, then both notices) or notify
the caller that the search is pending. -/
def searchCore (store1 : List Participant) (recentEntries : List RecentEntry)
    (sender : String) (now : Nat) : List Participant × List Sent :=
  let recent := unexpiredRecent recentEntries now
  match scanForPartner store1 recent with
  | some w =>
    let store2 := updateOne store1 sender (setChatWith w.id now)
    let store3 := updateOne store2 w.id (setChatWith sender now)
    (store3, [⟨sender, SendPayload.text partnerFoundText, true⟩,
              ⟨w.id, SendPayload.text partnerFoundText, true⟩])
  | none =>
    (store1, [⟨sender, SendPayload.text searchingText, true⟩])

/-- menu.js handleSearch.  The guard rejects only when the existing
record has a truthy partner; otherwise the record is upserted to waiting
with a refreshed lastSearchTime (or created fresh) and the scan runs. -/
def handleSearch (store : List Participant) (sender : String) (now : Nat) :
    List Participant × List Sent :=
  match findP store sender with
  | some u =>
    if u.partner.isSome then
      (store, [⟨sender, SendPayload.text alreadyInChatText, true⟩])
    else
      searchCore (updateOne store sender (setWaiting now)) u.recentPartners sender now
  | none =>
    let fresh : Participant :=
      { id := sender, status := "waiting", partner := none,
        joinedAt := now, lastSearchTime := now, recentPartners := [] }
    searchCore (store ++ [fresh]) [] sender now

/-- menu.js handleNext: requires a record with a truthy partner; notifies
the partner, resets the partner to idle, then invokes handleSearch for
the requesting participant (without touching the callers own record
first). -/
def handleNext (store : List Participant) (sender : String) (now : Nat) :
    List Participant × List Sent :=
  match findP store sender with
  | none => (store, [⟨sender, SendPayload.text notInChatText, true⟩])
  | some u =>
    match u.partner with
    | none => (store, [⟨sender, SendPayload.text notInChatText, true⟩])
    | some pid =>
      let store1 := updateOne store pid resetIdle
      let r := handleSearch store1 sender now
      (r.1, ⟨pid, SendPayload.text partnerLeftText, true⟩ :: r.2)

/-- menu.js handleStop: soft notice when no record exists; otherwise the
partner (when set) is notified and reset to idle, then the caller is
reset to idle and confirmed. -/
def handleStop (store : List Participant) (sender : String) :
    List Participant × List Sent :=
  match findP store sender with
  | none => (store, [⟨sender, SendPayload.text noSessionText, true⟩])
  | some u =>
    match u.partner with
    | some pid =>
      let store1 := updateOne store pid resetIdle
      let store2 := updateOne store1 sender resetIdle
      (store2, [⟨pid, SendPayload.text partnerEndedText, true⟩,
                ⟨sender, SendPayload.text stopDoneText, true⟩])
    | none =>
      (updateOne store sender resetIdle,
       [⟨sender, SendPayload.text stopDoneText, true⟩])

/-- Inbound message content, one constructor per key tested by the
relayMessage if-chain (a WhatsApp message object carries one content
key). unsupportedKind holds the first key of any other content object. -/
inductive MessageContent where
  | conversation (text : String)
  | extendedTextMessage (text : String)
  | imageMessage (caption : Option String)
  | videoMessage (caption : Option String)
  | audioMessage
  | stickerMessage
  | documentMessage (mimetype : Option String) (fileName : Option String)
  | contactMessage (displayName vcard : String)
  | contactsArrayMessage
  | locationMessage (lat lng : Int)
  | liveLocationMessage
  | reactionMessage
  | protocolMessage
  | unsupportedKind (key : String)
  deriving DecidableEq, Repr

/-- Object.keys(messageContent)[0], stored as messageType on queued
documents. -/
def contentKey : MessageContent → String
  | .conversation _ => "conversation"
  | .extendedTextMessage _ => "extendedTextMessage"
  | .imageMessage _ => "imageMessage"
  | .videoMessage _ => "videoMessage"
  | .audioMessage => "audioMessage"
  | .stickerMessage => "stickerMessage"
  | .documentMessage _ _ => "documentMessage"
  | .contactMessage _ _ => "contactMessage"
  | .contactsArrayMessage => "contactsArrayMessage"
  | .locationMessage _ _ => "locationMessage"
  | .liveLocationMessage => "liveLocationMessage"
  | .reactionMessage => "reactionMessage"
  | .protocolMessage => "protocolMessage"
  | .unsupportedKind k => k

/-- Notices and placeholder texts of the relay and queue paths. -/
def deferredDeliveryText : String :=
  "Your message will be delivered when your partner comes back online."

def cannotForwardText : String :=
  "[Your partner sent a message type that cannot be forwarded]"

def liveLocationText : String :=
  "[Your partner shared their live location]"

def imageQueuedText : String :=
  "[Your partner sent an image that will be delivered when you are both online]"

def videoQueuedText : String :=
  "[Your partner sent a video that will be delivered when you are both online]"

def audioQueuedText : String :=
  "[Your partner sent an audio message that will be delivered when you are both online]"

def stickerQueuedText : String :=
  "[Your partner sent a sticker that will be delivered when you are both online]"

def documentQueuedText : String :=
  "[Your partner sent a document that will be delivered when you are both online]"

def lateDeliveredNoticeText : String :=
  "Your previously queued message has been delivered to your partner."

def undeliverableNoticeText : String :=
  "Your previously queued message could not be delivered because you are no longer in a chat with that partner."

def lateAnnotationText : String :=
  "\n\n[This message was delivered after a connection issue]"

/-- The document handed to database.addToMessageQueue by
queueMessageOnFailure: sender, recipient, messageData, timestamp,
messageType and originalMessageId only — no status, retries or
mediaBuffer field is written.  The generated id is modelled as the
current queue length. -/
def mkQueuedDoc (sender recipient : String) (md : MessageData) (now : Nat)
    (mtype msgId : String) (nextId : Nat) : QueuedMessage :=
  { qid := nextId, sender := sender, recipient := recipient,
    messageData := md, timestamp := now, messageType := mtype,
    originalMessageId := msgId }

/-- queueMessageOnFailure: insert the fallback document and notify the
sender of deferred delivery (a failure of that notice is swallowed by the
inner catch, so the overall outcome does not depend on it). -/
def queueOnFailure (env : Env) (queue : List QueuedMessage)
    (sender recipient : String) (md : MessageData)
    (mtype msgId : String) (now : Nat) : List QueuedMessage × List Sent :=
  (queue ++ [mkQueuedDoc sender recipient md now mtype msgId queue.length],
   [⟨sender, SendPayload.text deferredDeliveryText, env.sendOk sender⟩])

/-- Result of one relayMessage call: the returned boolean, the message
queue afterwards, and the log of attempted sends. -/
structure RelayOut where
  relayed : Bool
  queue : List QueuedMessage
  sends : List Sent
  deriving DecidableEq, Repr

/-- Immediate forward to the partner with the outer-catch fallback of
relayMessage: on transport success return true with no queue change; on a
thrown send the classified fallback messageData is queued and the sender
notified, still returning true. -/
def trySendOrQueue (env : Env) (queue : List QueuedMessage)
    (sender partnerId : String) (payload : SendPayload)
    (fallback : MessageData) (mtype msgId : String) (now : Nat) : RelayOut :=
  if env.sendOk partnerId then
    ⟨true, queue, [⟨partnerId, payload, true⟩]⟩
  else
    let r := queueOnFailure env queue sender partnerId fallback mtype msgId now
    ⟨true, r.1, ⟨partnerId, payload, false⟩ :: r.2⟩

/-- A media branch of relayMessage: the inner try around
downloadMediaMessage queues its own fallback on download failure and
returns true; a successful download is then forwarded with the
outer-catch fallback. -/
def mediaRelay (env : Env) (queue : List QueuedMessage)
    (sender partnerId : String) (payload : SendPayload)
    (dlFallback sendFallback : MessageData) (mtype msgId : String) (now : Nat) : RelayOut :=
  if env.downloadOk then
    trySendOrQueue env queue sender partnerId payload sendFallback mtype msgId now
  else
    let r := queueOnFailure env queue sender partnerId dlFallback mtype msgId now
    ⟨true, r.1, r.2⟩

/-- The per-kind body of relayMessage once the sender is known to be
chatting with partnerId.  dlFallback documents carry the classified kind
and available caption or fileName; the outer-catch fallbacks are the
text placifiers of the deliveryError classification chain. -/
def relayBody (env : Env) (queue : List QueuedMessage)
    (sender partnerId : String) (content : MessageContent)
    (msgId : String) (now : Nat) : RelayOut :=
  let mtype := contentKey content
  match content with
  | .conversation t =>
    trySendOrQueue env queue sender partnerId (SendPayload.text t)
      { type := "text", content := t } mtype msgId now
  | .extendedTextMessage t =>
    trySendOrQueue env queue sender partnerId (SendPayload.text t)
      { type := "text", content := t } mtype msgId now
  | .imageMessage cap =>
    mediaRelay env queue sender partnerId (SendPayload.image (cap.getD ""))
      { type := "image", content := imageQueuedText, caption := some (cap.getD "") }
      { type := "text", content := "[Image message]", caption := some (cap.getD "") }
      mtype msgId now
  | .videoMessage cap =>
    mediaRelay env queue sender partnerId (SendPayload.video (cap.getD ""))
      { type := "video", content := videoQueuedText, caption := some (cap.getD "") }
      { type := "text", content := "[Video message]", caption := some (cap.getD "") }
      mtype msgId now
  | .audioMessage =>
    mediaRelay env queue sender partnerId SendPayload.audio
      { type := "audio", content := audioQueuedText }
      { type := "text", content := "[Audio message]" }
      mtype msgId now
  | .stickerMessage =>
    mediaRelay env queue sender partnerId SendPayload.sticker
      { type := "text", content := stickerQueuedText }
      { type := "text", content := "[Sticker]" }
      mtype msgId now
  | .documentMessage mt fn =>
    mediaRelay env queue sender partnerId
      (SendPayload.document (mt.getD "") (fn.getD "file"))
      { type := "document", content := documentQueuedText, fileName := some (fn.getD "file") }
      { type := "text", content := "[Document: " ++ fn.getD "file" ++ "]" }
      mtype msgId now
  | .contactMessage _ _ =>
    trySendOrQueue env queue sender partnerId SendPayload.contacts
      { type := "text", content := "[Contact]" } mtype msgId now
  | .contactsArrayMessage =>
    trySendOrQueue env queue sender partnerId SendPayload.contacts
      { type := "text", content := "[Contact]" } mtype msgId now
  | .locationMessage la ln =>
    trySendOrQueue env queue sender partnerId (SendPayload.location la ln)
      { type := "text", content := "[Location]" } mtype msgId now
  | .liveLocationMessage =>
    trySendOrQueue env queue sender partnerId (SendPayload.text liveLocationText)
      { type := "text", content := "[Message]" } mtype msgId now
  | .reactionMessage => ⟨true, queue, []⟩
  | .protocolMessage => ⟨true, queue, []⟩
  | .unsupportedKind _ =>
    trySendOrQueue env queue sender partnerId (SendPayload.text cannotForwardText)
      { type := "text", content := "[Message]" } mtype msgId now

/-- The guard of relayMessage: a record must exist with a truthy partner
and status chatting. -/
def chatCheck (pstore : List Participant) (s : String) : Bool :=
  match findP pstore s with
  | some u => u.partner.isSome && u.status == "chatting"
  | none => false

/-- menu.js relayMessage.  Returns false without any effect when the
guard fails (the caller then treats the input as a command); otherwise
dispatches on the content kind.  The participant collection is never
written by this function. -/
def relayMessage (env : Env) (pstore : List Participant)
    (queue : List QueuedMessage) (sender : String)
    (content : MessageContent) (msgId : String) (now : Nat) : RelayOut :=
  match findP pstore sender with
  | none => ⟨false, queue, []⟩
  | some user =>
    match user.partner with
    | none => ⟨false, queue, []⟩
    | some partnerId =>
      if user.status == "chatting" then
        relayBody env queue sender partnerId content msgId now
      else
        ⟨false, queue, []⟩

/-- database.getPendingMessages filter: status pending, or status failed
with a retries field present and below 3 (a MongoDB lt comparison does
not match documents that lack the field). -/
def isPending (m : QueuedMessage) : Bool :=
  m.status == some "pending"
    || (m.status == some "failed"
          && (match m.retries with | some r => r < 3 | none => false))

/-- database.getPendingMessages. -/
def getPendingMessages (queue : List QueuedMessage) : List QueuedMessage :=
  queue.filter isPending

/-- The re-validation of processMessageQueue: the queued sender must
still exist, be chatting, and have exactly the queued recipient as
partner. -/
def chattingWith (pstore : List Participant) (s r : String) : Bool :=
  match findP pstore s with
  | some u => u.status == "chatting" && u.partner == some r
  | none => false

/-- The content send of the delivery branch of processMessageQueue: text
messageData (and every type without a stored mediaBuffer) goes out as
annotated text; the media cases only fire when a mediaBuffer is stored
on the document. -/
def drainPayload (m : QueuedMessage) : SendPayload :=
  if m.messageData.type == "text" then
    SendPayload.text (m.messageData.content ++ lateAnnotationText)
  else if m.messageData.type == "image" && m.mediaBuffer.isSome then
    SendPayload.image (m.messageData.caption.getD "" ++ lateAnnotationText)
  else if m.messageData.type == "video" && m.mediaBuffer.isSome then
    SendPayload.video (m.messageData.caption.getD "" ++ lateAnnotationText)
  else if m.messageData.type == "audio" && m.mediaBuffer.isSome then
    SendPayload.audio
  else if m.messageData.type == "document" && m.mediaBuffer.isSome then
    SendPayload.document (m.messageData.mimetype.getD "application/octet-stream")
      (m.messageData.fileName.getD "file")
  else
    SendPayload.text (m.messageData.content ++ lateAnnotationText)

/-- One iteration of the processMessageQueue loop: returns whether the
message id is pushed onto deliveredMessageIds, plus the sends attempted.
In the delivery branch a thrown content send aborts the iteration before
the push (the message stays queued); a thrown sender notice after a
successful content send also aborts before the push.  In the stale
branch the push happens first and a failed notice is swallowed. -/
def processQueuedMessage (env : Env) (pstore : List Participant)
    (m : QueuedMessage) : Bool × List Sent :=
  if chattingWith pstore m.sender m.recipient then
    let pl := drainPayload m
    if env.sendOk m.recipient then
      if env.sendOk m.sender then
        (true, [⟨m.recipient, pl, true⟩,
                ⟨m.sender, SendPayload.text lateDeliveredNoticeText, true⟩])
      else
        (false, [⟨m.recipient, pl, true⟩,
                 ⟨m.sender, SendPayload.text lateDeliveredNoticeText, false⟩])
    else
      (false, [⟨m.recipient, pl, false⟩])
  else
    (true, [⟨m.sender, SendPayload.text undeliverableNoticeText, env.sendOk m.sender⟩])

/-- The loop of processMessageQueue over the pending list, accumulating
deliveredMessageIds and the send log. -/
def drainGo (env : Env) (pstore : List Participant) :
    List QueuedMessage → List Nat × List Sent
  | [] => ([], [])
  | m :: rest =>
    let r := processQueuedMessage env pstore m
    let rr := drainGo env pstore rest
    ((if r.1 then m.qid :: rr.1 else rr.1), r.2 ++ rr.2)

/-- Result of one processMessageQueue pass.  The participant collection
is carried through unchanged: the function reads it but performs no
participant update. -/
structure DrainOut where
  pstore : List Participant
  queue : List QueuedMessage
  sends : List Sent
  deriving Repr

/-- menu.js processMessageQueue: fetch the pending messages, process each,
then clearDeliveredMessages removes every document whose id was pushed
(deleteMany with an id-in filter — the documents are deleted, not marked). -/
def processMessageQueue (env : Env) (pstore : List Participant)
    (queue : List QueuedMessage) : DrainOut :=
  let r := drainGo env pstore (getPendingMessages queue)
  ⟨pstore, queue.filter (fun m => !(r.1.contains m.qid)), r.2⟩

/-- A mutually chatting pair, the common starting state of the concrete
scenarios below. -/
def chattingPair (a b : String) : List Participant :=
  [{ id := a, status := "chatting", partner := some b,
     joinedAt := 0, lastSearchTime := 0, recentPartners := [] },
   { id := b, status := "chatting", partner := some a,
     joinedAt := 0, lastSearchTime := 0, recentPartners := [] }]

/-- findP returns a record whose id is the searched id. -/
theorem findP_eq_id {store : List Participant} {s : String} {u : Participant}
    (h : findP store s = some u) : u.id = s := by
  induction store with
  | nil => simp [findP] at h
  | cons p rest ih =>
    by_cases hp : (p.id == s) = true
    · simp [findP, hp] at h
      subst h
      exact beq_iff_eq.mp hp
    · simp [findP, hp] at h
      exact ih h

/-- Every element of an updateOne result is either an untouched original
or the image under f of the first match, which is the findP witness. -/
theorem mem_updateOne {q : Participant} {store : List Participant} {s : String}
    {f : Participant → Participant} (hq : q ∈ updateOne store s f) :
    q ∈ store ∨ ∃ p, findP store s = some p ∧ q = f p := by
  induction store with
  | nil => simp [updateOne] at hq
  | cons p rest ih =>
    by_cases hp : (p.id == s) = true
    · simp only [updateOne, hp, if_true] at hq
      rcases List.mem_cons.mp hq with rfl | hq2
      · exact Or.inr ⟨p, by simp [findP, hp], rfl⟩
      · exact Or.inl (List.mem_cons_of_mem _ hq2)
    · simp only [updateOne, hp] at hq
      rcases List.mem_cons.mp hq with rfl | hq2
      · exact Or.inl (List.mem_cons_self _ _)
      · rcases ih hq2 with h1 | ⟨w, hw, rfl⟩
        · exact Or.inl (List.mem_cons_of_mem _ h1)
        · exact Or.inr ⟨w, by simp [findP, hp, hw], rfl⟩

/-- Looking up the updated id after updateOne yields the updated first
match, provided the update does not change ids. -/
theorem findP_updateOne_self (store : List Participant) (s : String)
    (f : Participant → Participant) (hid : ∀ p, (f p).id = p.id) :
    findP (updateOne store s f) s = (findP store s).map f := by
  induction store with
  | nil => simp [findP, updateOne]
  | cons p rest ih =>
    by_cases hp : (p.id == s) = true
    · simp [findP, updateOne, hp, hid p]
    · simp [findP, updateOne, hp, ih]

/-- Looking up a different id after updateOne is unchanged, provided the
update does not change ids. -/
theorem findP_updateOne_ne (store : List Participant) (s t : String)
    (f : Participant → Participant) (hid : ∀ p, (f p).id = p.id)
    (hne : s ≠ t) : findP (updateOne store t f) s = findP store s := by
  induction store with
  | nil => simp [findP, updateOne]
  | cons p rest ih =>
    by_cases hp : (p.id == t) = true
    · have hpt : p.id = t := beq_iff_eq.mp hp
      have hps : (p.id == s) = false := by
        rw [beq_eq_false_iff_ne]
        rw [hpt]
        exact fun h => hne h.symm
      have hfs : ((f p).id == s) = false := by rw [hid p]; exact hps
      simp [findP, updateOne, hp, hps, hfs]
    · simp [findP, updateOne, hp, ih]

theorem resetIdle_id (p : Participant) : (resetIdle p).id = p.id := rfl

theorem setWaiting_id (now : Nat) (p : Participant) :
    (setWaiting now p).id = p.id := rfl

theorem setChatWith_id (pid : String) (now : Nat) (p : Participant) :
    (setChatWith pid now p).id = p.id := rfl

/-- The per-record invariant of claim C5: partner is set exactly when the
status is chatting. -/
def PairInv (store : List Participant) : Prop :=
  ∀ p ∈ store, p.partner ≠ none ↔ p.status = "chatting"

theorem inv_updateOne {store : List Participant} {s : String}
    {f : Participant → Participant} (h : PairInv store)
    (hf : ∀ p, findP store s = some p →
      ((f p).partner ≠ none ↔ (f p).status = "chatting")) :
    PairInv (updateOne store s f) := by
  intro q hq
  rcases mem_updateOne hq with h1 | ⟨p, hp, rfl⟩
  · exact h q h1
  · exact hf p hp

theorem setChatWith_inv (pid : String) (now : Nat) (p : Participant) :
    (setChatWith pid now p).partner ≠ none ↔
      (setChatWith pid now p).status = "chatting" := by
  simp [setChatWith]

theorem resetIdle_inv (p : Participant) :
    (resetIdle p).partner ≠ none ↔ (resetIdle p).status = "chatting" := by
  simp [resetIdle]

theorem inv_searchCore {store1 : List Participant}
    (re : List RecentEntry) (sender : String) (now : Nat)
    (h : PairInv store1) : PairInv (searchCore store1 re sender now).1 := by
  unfold searchCore
  cases hscan : scanForPartner store1 (unexpiredRecent re now) with
  | none => simpa [hscan] using h
  | some w =>
    simp only [hscan]
    exact inv_updateOne
      (inv_updateOne h (fun p _ => setChatWith_inv w.id now p))
      (fun p _ => setChatWith_inv sender now p)

theorem inv_handleSearch {store : List Participant} (sender : String)
    (now : Nat) (h : PairInv store) : PairInv (handleSearch store sender now).1 := by
  unfold handleSearch
  cases hfind : findP store sender with
  | none =>
    apply inv_searchCore
    intro p hp
    rcases List.mem_append.mp hp with h1 | h2
    · exact h p h1
    · simp only [List.mem_singleton] at h2
      subst h2
      simp
  | some u =>
    by_cases hp : u.partner.isSome = true
    · simpa [hp] using h
    · have hnone : u.partner = none := Option.not_isSome_iff_eq_none.mp hp
      simp only [hp, Bool.false_eq_true, if_false]
      apply inv_searchCore
      apply inv_updateOne h
      intro p hfp
      rw [hfind] at hfp
      injection hfp with hpu
      subst hpu
      simp [setWaiting, hnone]

theorem inv_handleNext {store : List Participant} (sender : String)
    (now : Nat) (h : PairInv store) : PairInv (handleNext store sender now).1 := by
  unfold handleNext
  cases hfind : findP store sender with
  | none => simpa using h
  | some u =>
    cases hpart : u.partner with
    | none => simpa [hpart] using h
    | some pid =>
      simp only [hpart]
      exact inv_handleSearch sender now
        (inv_updateOne h (fun p _ => resetIdle_inv p))

theorem inv_handleStop {store : List Participant} (sender : String)
    (h : PairInv store) : PairInv (handleStop store sender).1 := by
  unfold handleStop
  cases hfind : findP store sender with
  | none => simpa using h
  | some u =>
    cases hpart : u.partner with
    | none =>
      simp only [hpart]
      exact inv_updateOne h (fun p _ => resetIdle_inv p)
    | some pid =>
      simp only [hpart]
      exact inv_updateOne
        (inv_updateOne h (fun p _ => resetIdle_inv p))
        (fun p _ => resetIdle_inv p)

/-- Claim C5: for every participant record at every store the operations
produce, partner is non-null exactly when status is chatting; search
(including its match commit), next, stop and queue processing all
preserve the invariant. -/
theorem partner_status_invariant_preserved
    (store : List Participant) (s : String) (now : Nat)
    (env : Env) (queue : List QueuedMessage) (h : PairInv store) :
    PairInv (handleSearch store s now).1 ∧ PairInv (handleNext store s now).1 ∧
    PairInv (handleStop store s).1 ∧
    PairInv (processMessageQueue env store queue).pstore :=
  ⟨inv_handleSearch s now h, inv_handleNext s now h, inv_handleStop s h, h⟩

/-- Witness for C5, instantiated at the empty store. -/
theorem partner_status_invariant_preserved_witness :
    PairInv ([] : List Participant) ∧ PairInv (handleSearch [] "A" 0).1 := by
  have h0 : PairInv ([] : List Participant) := by
    intro p hp
    cases hp
  exact ⟨h0, (partner_status_invariant_preserved [] "A" 0 ⟨fun _ => true, true⟩ [] h0).1⟩

/-- Claim C1 (refuted by the code): starting from an empty store, a single
search by A pairs A with A.  The source writes the scan filter with a
duplicated id key, so under JavaScript object-literal evaluation the
id-not-equal-to-self clause is dropped and the callers own freshly
upserted waiting record is the first scan match. -/
theorem search_scan_self_match_bug :
    findP (handleSearch [] "A" 1000).1 "A" =
      some { id := "A", status := "chatting", partner := some "A",
             joinedAt := 1000, lastSearchTime := 1000,
             recentPartners := [⟨"A", 1000⟩, ⟨"A", 1000⟩] } ∧
    (handleSearch [] "A" 1000).2 =
      [⟨"A", SendPayload.text partnerFoundText, true⟩,
       ⟨"A", SendPayload.text partnerFoundText, true⟩] := by decide

/-- The relay attempt of claim C2: A chatting with B, the transport to B
down, A sends the text hi. -/
def relayFailOut : RelayOut :=
  relayMessage ⟨fun r => r == "A", true⟩ (chattingPair "A" "B") [] "A"
    (MessageContent.conversation "hi") "m1" 7

/-- Claim C2 (refuted by the code): the failed relay inserts exactly one
queued document and the sender receives the deferred-delivery notice, but
the inserted document carries no status field and no retries field at
all, so it never satisfies the pending filter of getPendingMessages. -/
theorem relay_failure_queue_missing_status_fields :
    relayFailOut.relayed = true ∧
    relayFailOut.queue =
      [{ qid := 0, sender := "A", recipient := "B",
         messageData := { type := "text", content := "hi" },
         timestamp := 7, messageType := "conversation",
         originalMessageId := "m1" }] ∧
    (∀ d ∈ relayFailOut.queue, d.status = none ∧ d.retries = none) ∧
    getPendingMessages relayFailOut.queue = [] ∧
    ⟨"A", SendPayload.text deferredDeliveryText, true⟩ ∈ relayFailOut.sends := by
  decide

/-- Claim C3 (refuted by the code): with A and B mutually chatting, next
from A resets B to idle but then the inner search sees As record still
holding partner B and rejects with the already-in-chat notice, leaving A
chatting with the departed B instead of waiting or newly matched. -/
theorem next_leaves_requester_chatting_bug :
    handleNext (chattingPair "A" "B") "A" 10 =
      ([{ id := "A", status := "chatting", partner := some "B", joinedAt := 0,
          lastSearchTime := 0, recentPartners := [] },
        { id := "B", status := "idle", partner := none, joinedAt := 0,
          lastSearchTime := 0, recentPartners := [] }],
       [⟨"B", SendPayload.text partnerLeftText, true⟩,
        ⟨"A", SendPayload.text alreadyInChatText, true⟩]) := by decide

/-- Environment of claim C4: delivery to the recipient B always fails,
sends to the sender A succeed. -/
def envRecipientDown : Env := ⟨fun r => r == "A", true⟩

/-- A queued pending text message from A to B. -/
def pendingTextMsg : QueuedMessage :=
  { qid := 0, sender := "A", recipient := "B",
    messageData := { type := "text", content := "hi" },
    timestamp := 5, messageType := "conversation", originalMessageId := "m1",
    status := some "pending", retries := some 0 }

/-- One queue drain under the C4 environment with A and B chatting. -/
def drainQueueOnce (q : List QueuedMessage) : List QueuedMessage :=
  (processMessageQueue envRecipientDown (chattingPair "A" "B") q).queue

/-- Claim C4 (refuted by the code): four successive failing drain passes
leave the message pending with retries still 0 — no pass increments
retries, none marks failed_permanent, and no permanent-failure notice is
ever sent to the sender A. -/
theorem queue_retry_budget_never_enforced :
    drainQueueOnce (drainQueueOnce (drainQueueOnce (drainQueueOnce
      [pendingTextMsg]))) = [pendingTextMsg] ∧
    pendingTextMsg.status = some "pending" ∧ pendingTextMsg.retries = some 0 ∧
    (∀ s ∈ (processMessageQueue envRecipientDown (chattingPair "A" "B")
        [pendingTextMsg]).sends, s.dest ≠ "A") := by decide

/-- Claim C8: with an existing record, stop leaves the caller idle with
partner null regardless of prior state; when a partner was set, that
partner is notified and reset identically; without a record, stop is the
soft informational notice with no state change. -/
theorem stop_resets_caller_and_partner (store : List Participant) (sender : String) :
    (findP store sender = none →
      handleStop store sender =
        (store, [⟨sender, SendPayload.text noSessionText, true⟩])) ∧
    (∀ u, findP store sender = some u →
      findP (handleStop store sender).1 sender = some (resetIdle u) ∧
      (u.partner = none →
        (handleStop store sender).2 =
          [⟨sender, SendPayload.text stopDoneText, true⟩]) ∧
      (∀ p, u.partner = some p →
        (handleStop store sender).2 =
          [⟨p, SendPayload.text partnerEndedText, true⟩,
           ⟨sender, SendPayload.text stopDoneText, true⟩] ∧
        (∀ w, findP store p = some w →
          findP (handleStop store sender).1 p = some (resetIdle w)))) := by
  constructor
  · intro h
    simp [handleStop, h]
  · intro u hu
    cases hpart : u.partner with
    | none =>
      refine ⟨?_, ?_, ?_⟩
      · simp only [handleStop, hu, hpart]
        rw [findP_updateOne_self store sender resetIdle resetIdle_id, hu]
        rfl
      · intro _
        simp [handleStop, hu, hpart]
      · intro p hp
        simp at hp
    | some p0 =>
      refine ⟨?_, ?_, ?_⟩
      · simp only [handleStop, hu, hpart]
        by_cases hps : p0 = sender
        · subst hps
          rw [findP_updateOne_self _ p0 resetIdle resetIdle_id,
              findP_updateOne_self store p0 resetIdle resetIdle_id, hu]
          simp [resetIdle]
        · rw [findP_updateOne_self _ sender resetIdle resetIdle_id,
              findP_updateOne_ne store sender p0 resetIdle resetIdle_id
                (Ne.symm hps), hu]
          rfl
      · intro hnone
        simp at hnone
      · intro p hp
        injection hp with hpe
        subst hpe
        constructor
        · simp [handleStop, hu, hpart]
        · intro w hw
          by_cases hps : p0 = sender
          · subst hps
            rw [hu] at hw
            injection hw with hwu
            subst hwu
            simp only [handleStop, hu, hpart]
            rw [findP_updateOne_self _ p0 resetIdle resetIdle_id,
                findP_updateOne_self store p0 resetIdle resetIdle_id, hu]
            simp [resetIdle]
          · simp only [handleStop, hu, hpart]
            rw [findP_updateOne_ne _ p0 sender resetIdle resetIdle_id hps,
                findP_updateOne_self store p0 resetIdle resetIdle_id, hw]
            rfl

/-- Witness for C8: stop by A while chatting with B leaves As record idle
with partner null. -/
theorem stop_resets_caller_and_partner_witness :
    findP (handleStop (chattingPair "A" "B") "A").1 "A" =
      some (resetIdle { id := "A", status := "chatting", partner := some "B",
                        joinedAt := 0, lastSearchTime := 0, recentPartners := [] }) :=
  ((stop_resets_caller_and_partner (chattingPair "A" "B") "A").2
    { id := "A", status := "chatting", partner := some "B",
      joinedAt := 0, lastSearchTime := 0, recentPartners := [] } (by decide)).1

/-- After searchCore the callers record keeps its pre-scan lastSearchTime
and id: the match commit writes status, partner and recentPartners only. -/
theorem findP_searchCore (store1 : List Participant) (re : List RecentEntry)
    (sender : String) (now : Nat) (x : Participant)
    (hx : findP store1 sender = some x) :
    ∃ v, findP (searchCore store1 re sender now).1 sender = some v ∧
      v.lastSearchTime = x.lastSearchTime ∧ v.id = x.id := by
  unfold searchCore
  cases hscan : scanForPartner store1 (unexpiredRecent re now) with
  | none => exact ⟨x, by simp [hscan, hx], rfl, rfl⟩
  | some w =>
    simp only [hscan]
    by_cases hws : w.id = sender
    · rw [hws]
      refine ⟨setChatWith sender now (setChatWith sender now x), ?_, rfl, rfl⟩
      rw [findP_updateOne_self _ sender _ (setChatWith_id sender now),
          findP_updateOne_self _ sender _ (setChatWith_id sender now), hx]
      rfl
    · refine ⟨setChatWith w.id now x, ?_, rfl, rfl⟩
      rw [findP_updateOne_ne _ sender w.id _ (setChatWith_id sender now)
            (Ne.symm hws),
          findP_updateOne_self _ sender _ (setChatWith_id w.id now), hx]
      rfl

/-- Claim C6 as amended: search fails softly — notice, store untouched —
exactly when the existing record has a partner set (status chatting under
the invariant); a record that is merely waiting is not rejected: its
lastSearchTime is refreshed to the present call and the scan re-runs. -/
theorem search_soft_fail_only_when_partner_set
    (store : List Participant) (sender : String) (now : Nat) :
    (∀ u p, findP store sender = some u → u.partner = some p →
      handleSearch store sender now =
        (store, [⟨sender, SendPayload.text alreadyInChatText, true⟩])) ∧
    (∀ u, findP store sender = some u → u.partner = none →
      ∃ v, findP (handleSearch store sender now).1 sender = some v ∧
        v.lastSearchTime = now ∧ v.id = sender) := by
  constructor
  · intro u p hu hp
    simp [handleSearch, hu, hp]
  · intro u hu hp
    have hfind1 : findP (updateOne store sender (setWaiting now)) sender
        = some (setWaiting now u) := by
      rw [findP_updateOne_self store sender _ (setWaiting_id now), hu]
      rfl
    rcases findP_searchCore (updateOne store sender (setWaiting now))
        u.recentPartners sender now (setWaiting now u) hfind1 with ⟨v, hv1, hv2, hv3⟩
    refine ⟨v, ?_, ?_, ?_⟩
    · simpa [handleSearch, hu, hp] using hv1
    · rw [hv2]
      rfl
    · rw [hv3]
      show u.id = sender
      exact findP_eq_id hu

/-- Claim C6 counterexample: a participant already waiting is not left
unchanged by a repeated search — the call rewrites the record (refreshed
lastSearchTime, and here even a self-match). -/
theorem search_while_waiting_changes_state :
    (handleSearch [{ id := "A", status := "waiting", partner := none,
                     joinedAt := 0, lastSearchTime := 0,
                     recentPartners := [] }] "A" 5).1 ≠
      [{ id := "A", status := "waiting", partner := none, joinedAt := 0,
         lastSearchTime := 0, recentPartners := [] }] := by decide

/-- Witness for the amended C6: a chatting participant is soft-rejected
with no state change. -/
theorem search_soft_fail_only_when_partner_set_witness :
    handleSearch (chattingPair "A" "B") "A" 42 =
      (chattingPair "A" "B", [⟨"A", SendPayload.text alreadyInChatText, true⟩]) :=
  (search_soft_fail_only_when_partner_set (chattingPair "A" "B") "A" 42).1
    { id := "A", status := "chatting", partner := some "B", joinedAt := 0,
      lastSearchTime := 0, recentPartners := [] } "B" (by decide) (by decide)

theorem trySendOrQueue_relayed (env : Env) (queue : List QueuedMessage)
    (sender partnerId : String) (payload : SendPayload)
    (fallback : MessageData) (mtype msgId : String) (now : Nat) :
    (trySendOrQueue env queue sender partnerId payload fallback mtype msgId now).relayed
      = true := by
  unfold trySendOrQueue
  split <;> rfl

theorem mediaRelay_relayed (env : Env) (queue : List QueuedMessage)
    (sender partnerId : String) (payload : SendPayload)
    (dlFallback sendFallback : MessageData) (mtype msgId : String) (now : Nat) :
    (mediaRelay env queue sender partnerId payload dlFallback sendFallback
        mtype msgId now).relayed = true := by
  unfold mediaRelay
  split
  · exact trySendOrQueue_relayed env queue sender partnerId payload
      sendFallback mtype msgId now
  · rfl

/-- Every branch of the relay body reports success: delivered, queued, or
silently consumed. -/
theorem relayBody_relayed (env : Env) (queue : List QueuedMessage)
    (sender partnerId : String) (content : MessageContent)
    (msgId : String) (now : Nat) :
    (relayBody env queue sender partnerId content msgId now).relayed = true := by
  cases content <;>
    simp [relayBody, trySendOrQueue_relayed, mediaRelay_relayed]

/-- Claim C7 as amended: relayMessage returns true exactly when the
sender passes the chatting guard — every content kind, unsupported ones
included, is then delivered, queued, or silently consumed; it returns
false (with no effect) only when the guard fails.  An unsupported kind
does not notify the sender: its first send is a placeholder text
addressed to the partner. -/
theorem relay_true_iff_chatting :
    (∀ (env : Env) (pstore : List Participant) (queue : List QueuedMessage)
        (sender : String) (content : MessageContent) (msgId : String) (now : Nat),
      ((relayMessage env pstore queue sender content msgId now).relayed = true ↔
        chatCheck pstore sender = true)) ∧
    (∀ (env : Env) (pstore : List Participant) (queue : List QueuedMessage)
        (sender : String) (content : MessageContent) (msgId : String) (now : Nat),
      chatCheck pstore sender = false →
      relayMessage env pstore queue sender content msgId now = ⟨false, queue, []⟩) ∧
    (∀ (env : Env) (pstore : List Participant) (queue : List QueuedMessage)
        (sender k msgId : String) (now : Nat) (u : Participant) (p : String),
      findP pstore sender = some u → u.partner = some p → u.status = "chatting" →
      (relayMessage env pstore queue sender (MessageContent.unsupportedKind k)
          msgId now).sends.head? =
        some ⟨p, SendPayload.text cannotForwardText, env.sendOk p⟩) := by
  refine ⟨?_, ?_, ?_⟩
  · intro env pstore queue sender content msgId now
    simp only [relayMessage, chatCheck]
    cases hf : findP pstore sender with
    | none => simp
    | some u =>
      cases hp : u.partner with
      | none => simp [hp]
      | some pid =>
        by_cases hs : u.status = "chatting"
        · simp [hp, hs, relayBody_relayed]
        · simp [hp, hs]
  · intro env pstore queue sender content msgId now hch
    simp only [relayMessage]
    cases hf : findP pstore sender with
    | none => simp
    | some u =>
      cases hp : u.partner with
      | none => simp [hp]
      | some pid =>
        simp only [chatCheck, hf, hp] at hch
        by_cases hs : u.status = "chatting"
        · simp [hs] at hch
        · simp [hp, hs]
  · intro env pstore queue sender k msgId now u p hu hp hs
    by_cases he : env.sendOk p = true <;>
      simp [relayMessage, hu, hp, hs, relayBody, trySendOrQueue,
        queueOnFailure, he]

/-- Claim C7 counterexample: with A chatting with B and a healthy
transport, an unsupported content kind makes relayMessage send the
cannot-be-forwarded placeholder to the partner B (not to the sender) and
return true, where the claim requires a notice to the sender and false. -/
theorem relay_unsupported_returns_true_cex :
    relayMessage ⟨fun _ => true, true⟩ (chattingPair "A" "B") [] "A"
        (MessageContent.unsupportedKind "pollCreationMessage") "m1" 0 =
      ⟨true, [], [⟨"B", SendPayload.text cannotForwardText, true⟩]⟩ := by decide

/-- Witness for the amended C7 at a concrete chatting pair. -/
theorem relay_true_iff_chatting_witness :
    (relayMessage ⟨fun _ => true, true⟩ (chattingPair "A" "B") [] "A"
        (MessageContent.unsupportedKind "pollUpdateMessage") "m1" 0).sends.head? =
      some ⟨"B", SendPayload.text cannotForwardText,
            (⟨fun _ => true, true⟩ : Env).sendOk "B"⟩ :=
  relay_true_iff_chatting.2.2 ⟨fun _ => true, true⟩ (chattingPair "A" "B") [] "A"
    "pollUpdateMessage" "m1" 0
    { id := "A", status := "chatting", partner := some "B", joinedAt := 0,
      lastSearchTime := 0, recentPartners := [] } "B"
    (by decide) (by decide) (by decide)

/-- A stale message whose delete flag is set contributes its id to the
deliveredMessageIds accumulator of the drain loop. -/
theorem qid_mem_drainGo (env : Env) (pstore : List Participant)
    (l : List QueuedMessage) (m : QueuedMessage) (hm : m ∈ l)
    (hdel : (processQueuedMessage env pstore m).1 = true) :
    m.qid ∈ (drainGo env pstore l).1 := by
  induction l with
  | nil => cases hm
  | cons a rest ih =>
    rcases List.mem_cons.mp hm with rfl | hm2
    · simp [drainGo, hdel]
    · by_cases ha : (processQueuedMessage env pstore a).1 = true
      · simp only [drainGo, ha, if_true]
        exact List.mem_cons_of_mem _ (ih hm2)
      · simp only [drainGo, ha]
        simp only [Bool.not_eq_true] at ha
        simp [ha]
        exact ih hm2

/-- Claim C9 as amended: during a drain pass every pending message is
re-validated; a message whose sender is no longer chatting with exactly
its recipient is removed from the queue (deleted, with a non-delivery
notice to the original sender) and its processing attempts no send to
the recipient, so stale queued content is never delivered. -/
theorem drain_stale_never_delivered (env : Env) (pstore : List Participant)
    (queue : List QueuedMessage) (m : QueuedMessage) (hm : m ∈ queue)
    (hpend : isPending m = true)
    (hstale : chattingWith pstore m.sender m.recipient = false) :
    (∀ m2 ∈ (processMessageQueue env pstore queue).queue, m2.qid ≠ m.qid) ∧
    processQueuedMessage env pstore m =
      (true, [⟨m.sender, SendPayload.text undeliverableNoticeText,
              env.sendOk m.sender⟩]) := by
  have hdel : (processQueuedMessage env pstore m).1 = true := by
    simp [processQueuedMessage, hstale]
  constructor
  · intro m2 hm2 heq
    have hmem : m ∈ getPendingMessages queue :=
      List.mem_filter.mpr ⟨hm, hpend⟩
    have hid : m.qid ∈ (drainGo env pstore (getPendingMessages queue)).1 :=
      qid_mem_drainGo env pstore _ m hmem hdel
    simp only [processMessageQueue] at hm2
    rcases List.mem_filter.mp hm2 with ⟨_, hcond⟩
    rw [heq] at hcond
    have hc : (drainGo env pstore (getPendingMessages queue)).1.contains m.qid
        = true := List.elem_eq_true_of_mem hid
    rw [hc] at hcond
    simp at hcond
  · simp [processQueuedMessage, hstale]

/-- The idle sender store of the C9 scenarios. -/
def idleOnlyStore : List Participant :=
  [{ id := "A", status := "idle", partner := none, joinedAt := 0,
     lastSearchTime := 0, recentPartners := [] }]

/-- Claim C9 counterexample: a stale pending message is deleted from the
queue store by the drain pass — afterwards no record of it exists at all,
in particular none marked cancelled, where the claim requires the message
to be retained with status cancelled. -/
theorem drain_stale_deleted_not_cancelled :
    (processMessageQueue ⟨fun _ => true, true⟩ idleOnlyStore
        [pendingTextMsg]).queue = [] ∧
    (processMessageQueue ⟨fun _ => true, true⟩ idleOnlyStore
        [pendingTextMsg]).sends =
      [⟨"A", SendPayload.text undeliverableNoticeText, true⟩] := by decide

/-- Witness for the amended C9 at a concrete stale message. -/
theorem drain_stale_never_delivered_witness :
    processQueuedMessage ⟨fun _ => true, true⟩ idleOnlyStore pendingTextMsg =
      (true, [⟨"A", SendPayload.text undeliverableNoticeText,
              (⟨fun _ => true, true⟩ : Env).sendOk "A"⟩]) :=
  (drain_stale_never_delivered ⟨fun _ => true, true⟩ idleOnlyStore
    [pendingTextMsg] pendingTextMsg (by decide) (by decide) (by decide)).2

/-- Claim C10: for a chatting sender, a reactionMessage or a
protocolMessage is silently consumed — relayMessage returns true, the
partner receives nothing, and the queue is untouched. -/
theorem relay_reaction_protocol_silent
    (env : Env) (pstore : List Participant) (queue : List QueuedMessage)
    (sender msgId : String) (now : Nat) (u : Participant) (p : String)
    (hu : findP pstore sender = some u) (hp : u.partner = some p)
    (hs : u.status = "chatting") :
    relayMessage env pstore queue sender MessageContent.reactionMessage msgId now =
      ⟨true, queue, []⟩ ∧
    relayMessage env pstore queue sender MessageContent.protocolMessage msgId now =
      ⟨true, queue, []⟩ := by
  constructor <;> simp [relayMessage, hu, hp, hs, relayBody]

/-- Witness for C10 at a concrete chatting pair. -/
theorem relay_reaction_protocol_silent_witness :
    relayMessage ⟨fun _ => true, true⟩ (chattingPair "A" "B") [] "A"
        MessageContent.reactionMessage "m1" 0 = ⟨true, [], []⟩ :=
  (relay_reaction_protocol_silent ⟨fun _ => true, true⟩ (chattingPair "A" "B")
    [] "A" "m1" 0
    { id := "A", status := "chatting", partner := some "B", joinedAt := 0,
      lastSearchTime := 0, recentPartners := [] } "B"
    (by decide) (by decide) (by decide)).1
